import Mathlib

/-!
Shallow embedding of the ml-hand-gesture-backend core (src/backend):
auth.py (password hashing, JWT, identity resolution) and main.py
(FastAPI endpoints over a relational store), with models.py giving the
row shapes.  The relational store is modelled as lists of rows; time is
modelled as seconds (Nat); JSON payloads are opaque strings.
-/

namespace MLHandGesture

/-- Opaque JSON payload blob (modelTopology, mapping logic, etc.). -/
abbrev Payload := String

/-- Row of the users table (models.py User). -/
structure User where
  id : Nat
  username : String
  email : String
  hashed_password : Option String
  created_at : Nat
  deriving Repr, DecidableEq

/-- Row of the saved_models table (models.py SavedModel). -/
structure SavedModel where
  id : Nat
  user_id : Nat
  name : String
  description : Option String
  class_names : Payload
  model_data : Payload
  dataset : Option Payload
  is_public : Bool
  created_at : Nat
  deriving Repr, DecidableEq

/-- Row of the gesture_mappings table (models.py GestureMapping).
The is_public column is read and written by main.py (get_gestures,
update_gesture_visibility) and added by the add_public_columns.py
migration; models.py omits it, so it is included here with the
migration default false. -/
structure GestureMapping where
  id : Nat
  user_id : Nat
  name : String
  mapping_data : Payload
  is_active : Bool
  is_public : Bool
  created_at : Nat
  deriving Repr, DecidableEq

/-- Row of the music_sequences table (models.py MusicSequence), with the
same migration-supplied is_public column as GestureMapping. -/
structure MusicSequence where
  id : Nat
  user_id : Nat
  title : String
  sequence_data : Option Payload
  is_active : Bool
  is_public : Bool
  created_at : Nat
  deriving Repr, DecidableEq

/-- Modelled from the spec: the PasswordResetToken ORM class referenced
by main.py (forgot_password, reset_password) is absent from models.py in
src; spec section 3 defines the persisted row as a unique token string,
the owning identity id, and an expiry timestamp. -/
structure PasswordResetToken where
  user_id : Nat
  token : String
  expires_at : Nat
  deriving Repr, DecidableEq

/-- The relational store. -/
structure DB where
  users : List User
  saved_models : List SavedModel
  gesture_mappings : List GestureMapping
  music_sequences : List MusicSequence
  reset_tokens : List PasswordResetToken
  deriving Repr, DecidableEq

/-- HTTP-level failures raised by the endpoints (fastapi HTTPException),
plus internal for an unhandled exception escaping the handler (500). -/
inductive HTTPError where
  | badRequest (detail : String)
  | unauthorized (detail : String)
  | forbidden (detail : String)
  | notFound (detail : String)
  | internal (detail : String)
  deriving Repr, DecidableEq

/-- Outcome of a request handler. -/
abbrev HResult (α : Type) := Except HTTPError α

/-! ## Credential store (auth.py) -/

/-- Models hashlib.sha256(password.encode()).hexdigest() in
auth.py _normalize_password.  The digest is treated as an opaque
injective function of the input; none of the claims depend on the
internals of SHA-256, only on the normalize-then-slow-hash pipeline. -/
def sha256Hex (s : String) : String := "sha256/" ++ s

/-- auth.py _normalize_password: pre-hash with SHA256 so the input fits
inside the 72-byte limit of bcrypt. -/
def normalize_password (password : String) : String := sha256Hex password

/-- The scheme header of a passlib bcrypt hash string. -/
def bcryptHeader : String := "$2b$12$"

/-- Pads or truncates a salt to the fixed 22-character bcrypt salt field. -/
def padSalt (salt : String) : String := ⟨(salt.data ++ List.replicate 22 'x').take 22⟩

/-- Models the passlib bcrypt backend hash output: scheme header, a
22-character salt field, then the (modelled) digest of salt and input.
Injective in the input for a fixed salt, as for real bcrypt digests. -/
def bcryptHashWith (salt : String) (input : String) : String :=
  bcryptHeader ++ padSalt salt ++ input

/-- Errors raised by passlib CryptContext.verify: TypeError when the
hash is None, UnknownHashError when the hash string is not recognised
as any configured scheme. -/
inductive PasslibError where
  | typeError
  | unknownHash
  deriving Repr, DecidableEq

/-- The first 7 characters of a string, used to recognise the bcrypt
scheme header. -/
def strTake7 (s : String) : String := ⟨s.data.take 7⟩

/-- The characters after the header and salt field of a bcrypt hash. -/
def strDrop29 (s : String) : String := ⟨s.data.drop 29⟩

/-- Models passlib CryptContext(schemes=[bcrypt]).hash: a fresh salt is
chosen by the library; it is passed explicitly here. -/
def cryptContextHash (salt : String) (secret : String) : String :=
  bcryptHashWith salt secret

/-- Models passlib CryptContext.verify: raises TypeError on a None
hash, raises UnknownHashError when the stored string does not carry a
recognised scheme header, otherwise recomputes the digest with the
embedded salt and compares. -/
def cryptContextVerify (secret : String) (hash : Option String) :
    Except PasslibError Bool :=
  match hash with
  | none => .error .typeError
  | some h =>
      if strTake7 h = bcryptHeader then
        .ok (strDrop29 h == secret)
      else
        .error .unknownHash

/-- auth.py hash_password: normalize then slow-hash. -/
def hash_password (salt : String) (password : String) : String :=
  cryptContextHash salt (normalize_password password)

/-- auth.py verify_password: re-normalize and delegate to the passlib
comparator; the source has no exception handling, so passlib errors
propagate to the caller. -/
def verify_password (plain_password : String) (hashed_password : Option String) :
    Except PasslibError Bool :=
  cryptContextVerify (normalize_password plain_password) hashed_password

/-! ## Token service (auth.py) -/

/-- auth.py SECRET_KEY default (env JWT_SECRET_KEY unset). -/
def SECRET_KEY : String := "dev-secret-change-in-production"

/-- auth.py ACCESS_TOKEN_EXPIRE_MINUTES default (24h). -/
def ACCESS_TOKEN_EXPIRE_MINUTES : Nat := 1440

/-- A signed JWT as produced by jose.jwt.encode: the payload claims
sub and exp, together with the key the token was signed with (standing
for the HMAC signature). -/
structure JwtToken where
  sub : Option String
  exp : Nat
  signedWith : String
  deriving Repr, DecidableEq

/-- auth.py create_access_token for payload data containing a sub
claim: absolute expiry now + 1440 minutes, signed with SECRET_KEY. -/
def create_access_token (sub : String) (now : Nat) : JwtToken :=
  { sub := some sub
    exp := now + ACCESS_TOKEN_EXPIRE_MINUTES * 60
    signedWith := SECRET_KEY }

/-- Models jose.jwt.decode: signature check (key equality in this
model) and expiry check; any failure is a uniform JWTError. -/
def jwtDecode (t : JwtToken) (key : String) (now : Nat) :
    Except Unit (Option String × Nat) :=
  if t.signedWith = key then
    if t.exp < now then .error () else .ok (t.sub, t.exp)
  else .error ()

/-- Decimal digit character, 0 le d le 9. -/
def decDigitChar (d : Nat) : Char := Char.ofNat (48 + d)

/-- Canonical decimal rendering of a natural number as characters. -/
def decChars (n : Nat) : List Char :=
  if h : n < 10 then [decDigitChar n]
  else decChars (n / 10) ++ [decDigitChar (n % 10)]
  termination_by n
  decreasing_by
    exact Nat.div_lt_self (Nat.lt_of_lt_of_le (by decide) (Nat.le_of_not_lt h)) (by decide)

/-- Models the Python builtin str on a non-negative int: the canonical
decimal rendering. -/
def pyStr (n : Nat) : String := ⟨decChars n⟩

/-- Models the comparison integer-column = text-parameter issued by
get_current_user (User.id == payload sub, a string): the SQL engine
casts the untyped text literal to integer, so for the canonical decimal
literals produced by pyStr the comparison coincides with equality
against the canonical rendering of the column value. -/
def intColEqTextParam (colVal : Nat) (param : String) : Bool :=
  param == pyStr colVal

/-- auth.py get_current_user: None without a token, None on any
JWTError or missing sub claim, otherwise the first user whose id
matches the sub claim (or None when the subject no longer exists). -/
def get_current_user (token : Option JwtToken) (db : DB) (now : Nat) :
    Option User :=
  match token with
  | none => none
  | some t =>
      match jwtDecode t SECRET_KEY now with
      | .error _ => none
      | .ok (sub, _) =>
          match sub with
          | none => none
          | some s => db.users.find? (fun u => intColEqTextParam u.id s)

/-! ## Auth endpoints (main.py) -/

/-- Request body of PATCH /auth/profile. -/
structure UpdateProfileRequest where
  username : Option String
  deriving Repr, DecidableEq

/-- Request body of POST /auth/password. -/
structure UpdatePasswordRequest where
  current_password : String
  new_password : String
  deriving Repr, DecidableEq

/-- Request body of POST /auth/reset-password. -/
structure ResetPasswordRequest where
  token : String
  new_password : String
  deriving Repr, DecidableEq

/-- main.py FRONTEND_URL default. -/
def FRONTEND_URL : String := "http://localhost:5173"

/-- Replaces the user row with the given id (an ORM attribute update
followed by commit). -/
def updateUserRow (db : DB) (uid : Nat) (f : User → User) : DB :=
  { db with users := db.users.map (fun u => if u.id == uid then f u else u) }

/-- main.py update_profile (PATCH /auth/profile): optional username
change with emptiness and uniqueness checks; the notification email is
sent inside try/except, so the sendOk outcome of the notifier never
reaches the caller. -/
def update_profile (req : UpdateProfileRequest) (user : User) (db : DB)
    (sendOk : Bool) : HResult User × DB :=
  match req.username with
  | none => (.ok user, db)
  | some uname =>
      let trimmed := uname.trim
      if trimmed = "" then
        (.error (.badRequest "Username cannot be empty"), db)
      else if (db.users.find? (fun u => u.username == trimmed && !(u.id == user.id))).isSome then
        (.error (.badRequest "Username already taken"), db)
      else
        let user' := { user with username := trimmed }
        (.ok user', updateUserRow db user.id (fun u => { u with username := trimmed }))

/-- main.py update_password (POST /auth/password): verify the current
password (a passlib error escapes as a 500), enforce the minimum
length, store the new hash, then send the notification email inside
try/except so its outcome never reaches the caller. -/
def update_password (req : UpdatePasswordRequest) (user : User) (db : DB)
    (salt : String) (sendOk : Bool) : HResult String × DB :=
  match verify_password req.current_password user.hashed_password with
  | .error _ => (.error (.internal "unhandled passlib error"), db)
  | .ok ok =>
      if !ok then
        (.error (.badRequest "Current password is incorrect"), db)
      else if req.new_password.length < 6 then
        (.error (.badRequest "New password must be at least 6 characters"), db)
      else
        let db' := updateUserRow db user.id
          (fun u => { u with hashed_password := some (hash_password salt req.new_password) })
        (.ok "Password updated successfully", db')

/-- main.py forgot_password (POST /auth/forgot-password): a uniform
message whether or not the email exists; for an existing account a
reset token with a one hour expiry is inserted and committed, and only
then is the reset email sent, with no try/except around the send — a
raising notifier escapes the handler after the commit. -/
def forgot_password (email : String) (db : DB) (newToken : String)
    (now : Nat) (sendOk : Bool) : HResult String × DB :=
  match db.users.find? (fun u => u.email == email) with
  | none => (.ok "If that email exists, a reset link has been sent.", db)
  | some user =>
      let db' := { db with reset_tokens := db.reset_tokens ++
        [{ user_id := user.id, token := newToken, expires_at := now + 3600 }] }
      if sendOk then
        (.ok "If that email exists, a reset link has been sent.", db')
      else
        (.error (.internal "send_reset_email raised"), db')

/-- main.py reset_password (POST /auth/reset-password): look up the
token row, reject absent or expired tokens, then update the stored hash
of the owner and delete the token row in one commit. -/
def reset_password (req : ResetPasswordRequest) (db : DB) (now : Nat)
    (salt : String) : HResult String × DB :=
  match db.reset_tokens.find? (fun t => t.token == req.token) with
  | none => (.error (.badRequest "Invalid token"), db)
  | some rt =>
      if rt.expires_at < now then
        (.error (.badRequest "Token expired"), db)
      else
        match db.users.find? (fun u => u.id == rt.user_id) with
        | none => (.error (.notFound "User not found"), db)
        | some user =>
            let db' := updateUserRow db user.id
              (fun u => { u with hashed_password := some (hash_password salt req.new_password) })
            let db'' := { db' with reset_tokens := db'.reset_tokens.eraseP (fun t => t == rt) }
            (.ok "Password updated successfully", db'')

/-! ## Model endpoints (main.py) -/

/-- Response schema ModelListItem; created_at keeps the timestamp (the
isoformat rendering is order and equality preserving). -/
structure ModelListItem where
  id : Nat
  name : String
  description : Option String
  class_names : Payload
  is_public : Bool
  created_at : Nat
  author : String
  deriving Repr, DecidableEq

/-- Response schema ModelDetail: the list item plus the private payload
fields model_data and dataset. -/
structure ModelDetail where
  id : Nat
  name : String
  description : Option String
  class_names : Payload
  is_public : Bool
  created_at : Nat
  author : String
  model_data : Payload
  dataset : Option Payload
  deriving Repr, DecidableEq

/-- The ORM relationship m.user.username, empty when the owner row is
missing. -/
def username_of (db : DB) (uid : Nat) : String :=
  ((db.users.find? (fun u => u.id == uid)).map User.username).getD ""

/-- ORDER BY created_at DESC on saved_models rows. -/
def modelCreatedDesc (a b : SavedModel) : Prop := b.created_at ≤ a.created_at

instance : DecidableRel modelCreatedDesc := fun _ _ => Nat.decLe _ _

instance : IsTotal SavedModel modelCreatedDesc := ⟨fun a b => Nat.le_total b.created_at a.created_at⟩

instance : IsTrans SavedModel modelCreatedDesc := ⟨fun _ _ _ h1 h2 => Nat.le_trans h2 h1⟩

/-- main.py list_my_models (GET /models/my): the rows of the requester,
ordered by created_at descending (and by nothing else). -/
def list_my_models (user : User) (db : DB) : List ModelListItem :=
  ((db.saved_models.filter (fun m => m.user_id == user.id)).insertionSort modelCreatedDesc).map
    (fun m =>
      { id := m.id, name := m.name, description := m.description,
        class_names := m.class_names, is_public := m.is_public,
        created_at := m.created_at, author := user.username })

/-- Request body of POST /models/save. -/
structure ModelSaveRequest where
  name : String
  description : Option String
  class_names : Payload
  model_data : Payload
  dataset : Option Payload
  is_public : Bool
  deriving Repr, DecidableEq

/-- main.py save_model (POST /models/save): upsert keyed on
(user_id, name); an existing row is mutated in place, otherwise a new
row is inserted (nextId models the autoincrement key, now the
created_at default).  The upsert stage over the saved_models table. -/
def modelUpsert (req : ModelSaveRequest) (user : User)
    (rows : List SavedModel) (nextId : Nat) (now : Nat) :
    SavedModel × List SavedModel :=
  match rows.find? (fun m => m.user_id == user.id && m.name == req.name) with
  | some existing =>
      let updated := { existing with
        description := req.description, class_names := req.class_names,
        model_data := req.model_data, dataset := req.dataset,
        is_public := req.is_public }
      (updated, rows.map (fun m => if m.id == existing.id then updated else m))
  | none =>
      let m : SavedModel :=
        { id := nextId, user_id := user.id, name := req.name,
          description := req.description, class_names := req.class_names,
          model_data := req.model_data, dataset := req.dataset,
          is_public := req.is_public, created_at := now }
      (m, rows ++ [m])

/-- main.py save_model (POST /models/save): the upsert stage applied to
the saved_models table, packaged into the response item. -/
def save_model (req : ModelSaveRequest) (user : User) (db : DB)
    (nextId : Nat) (now : Nat) : ModelListItem × DB :=
  let result := modelUpsert req user db.saved_models nextId now
  let m := result.1
  ({ id := m.id, name := m.name, description := m.description,
     class_names := m.class_names, is_public := m.is_public,
     created_at := m.created_at, author := user.username },
   { db with saved_models := result.2 })

/-- main.py get_model (GET /models/id): 404 when absent; the privacy
branch in the source is a no-op (if not m.is_public: pass), and the
route takes no requester at all, so the full detail is returned to
every caller. -/
def get_model (model_id : Nat) (db : DB) : HResult ModelDetail :=
  match db.saved_models.find? (fun m => m.id == model_id) with
  | none => .error (.notFound "Model not found")
  | some m =>
      .ok { id := m.id, name := m.name, description := m.description,
            class_names := m.class_names, is_public := m.is_public,
            created_at := m.created_at, author := username_of db m.user_id,
            model_data := m.model_data, dataset := m.dataset }

/-- main.py delete_model (DELETE /models/id): 404 when absent, 403 when
not the owner; the success branch commits without ever calling
db.delete, so the store is returned unchanged. -/
def delete_model (model_id : Nat) (user : User) (db : DB) :
    HResult String × DB :=
  match db.saved_models.find? (fun m => m.id == model_id) with
  | none => (.error (.notFound "Model not found"), db)
  | some m =>
      if !(m.user_id == user.id) then
        (.error (.forbidden "Not your model"), db)
      else
        (.ok "Model deleted", db)

/-! ## Gesture and piano endpoints (main.py) -/

/-- Response schema ResourceResponse shared by the gesture and piano
endpoints. -/
structure ResourceResponse where
  id : Nat
  name_or_title : String
  data : Option Payload
  is_active : Bool
  is_public : Bool
  created_at : Nat
  author : String
  deriving Repr, DecidableEq

/-- Request body of POST /gestures. -/
structure GestureMappingSchema where
  name : String
  mapping_data : Payload
  is_active : Bool
  deriving Repr, DecidableEq

/-- Request body of POST /piano. -/
structure MusicSequenceSchema where
  title : String
  sequence_data : Option Payload
  is_active : Bool
  deriving Repr, DecidableEq

/-- main.py get_gestures (GET /gestures): the rows of the requester in
store order — the query carries no order_by clause. -/
def get_gestures (user : User) (db : DB) : List ResourceResponse :=
  (db.gesture_mappings.filter (fun g => g.user_id == user.id)).map
    (fun g =>
      { id := g.id, name_or_title := g.name, data := some g.mapping_data,
        is_active := g.is_active, is_public := g.is_public,
        created_at := g.created_at, author := user.username })

/-- main.py delete_gesture_mapping (DELETE /gestures/id): the query
filters on id and owner together, so a foreign or absent id is a
uniform 404; the found row is deleted and committed. -/
def delete_gesture_mapping (map_id : Nat) (user : User) (db : DB) :
    HResult String × DB :=
  match db.gesture_mappings.find? (fun g => g.id == map_id && g.user_id == user.id) with
  | none => (.error (.notFound "Mapping not found"), db)
  | some mapping =>
      (.ok "Deleted successfully",
        { db with gesture_mappings := db.gesture_mappings.eraseP (fun g => g == mapping) })

/-- The bulk UPDATE issued by save_gesture when is_active is requested:
set is_active false on every gesture row of the given owner. -/
def deactivateGesturesOf (uid : Nat) (l : List GestureMapping) : List GestureMapping :=
  l.map (fun g => if g.user_id == uid then { g with is_active := false } else g)

/-- The upsert stage of save_gesture: mutate the row with the same
(user_id, name) in place, or insert a new row; returns the saved row
and the resulting table. -/
def gestureUpsert (req : GestureMappingSchema) (user : User)
    (rows : List GestureMapping) (nextId : Nat) (now : Nat) :
    GestureMapping × List GestureMapping :=
  match rows.find? (fun g => g.user_id == user.id && g.name == req.name) with
  | some existing =>
      let updated := { existing with
        mapping_data := req.mapping_data, is_active := req.is_active }
      (updated, rows.map (fun g => if g.id == existing.id then updated else g))
  | none =>
      let g : GestureMapping :=
        { id := nextId, user_id := user.id, name := req.name,
          mapping_data := req.mapping_data, is_active := req.is_active,
          is_public := false, created_at := now }
      (g, rows ++ [g])

/-- main.py save_gesture (POST /gestures): when is_active is requested,
first set is_active false on every gesture row of the requester; then
upsert keyed on (user_id, name). -/
def save_gesture (req : GestureMappingSchema) (user : User) (db : DB)
    (nextId : Nat) (now : Nat) : ResourceResponse × DB :=
  let rows :=
    if req.is_active then deactivateGesturesOf user.id db.gesture_mappings
    else db.gesture_mappings
  let result := gestureUpsert req user rows nextId now
  let g := result.1
  ({ id := g.id, name_or_title := g.name, data := some g.mapping_data,
     is_active := g.is_active, is_public := g.is_public,
     created_at := g.created_at, author := user.username },
   { db with gesture_mappings := result.2 })

/-- main.py get_piano_sequences (GET /piano): the rows of the requester
in store order — the query carries no order_by clause. -/
def get_piano_sequences (user : User) (db : DB) : List ResourceResponse :=
  (db.music_sequences.filter (fun s => s.user_id == user.id)).map
    (fun s =>
      { id := s.id, name_or_title := s.title, data := s.sequence_data,
        is_active := s.is_active, is_public := s.is_public,
        created_at := s.created_at, author := user.username })

/-- The bulk UPDATE issued by save_piano_sequence when is_active is
requested: set is_active false on every music row of the given owner. -/
def deactivateMusicOf (uid : Nat) (l : List MusicSequence) : List MusicSequence :=
  l.map (fun s => if s.user_id == uid then { s with is_active := false } else s)

/-- The upsert stage of save_piano_sequence: mutate the row with the
same (user_id, title) in place, or insert a new row. -/
def musicUpsert (req : MusicSequenceSchema) (user : User)
    (rows : List MusicSequence) (nextId : Nat) (now : Nat) :
    MusicSequence × List MusicSequence :=
  match rows.find? (fun s => s.user_id == user.id && s.title == req.title) with
  | some existing =>
      let updated := { existing with
        sequence_data := req.sequence_data, is_active := req.is_active }
      (updated, rows.map (fun s => if s.id == existing.id then updated else s))
  | none =>
      let s : MusicSequence :=
        { id := nextId, user_id := user.id, title := req.title,
          sequence_data := req.sequence_data, is_active := req.is_active,
          is_public := false, created_at := now }
      (s, rows ++ [s])

/-- main.py save_piano_sequence (POST /piano): same deactivate-then-
upsert shape as save_gesture, keyed on (user_id, title). -/
def save_piano_sequence (req : MusicSequenceSchema) (user : User) (db : DB)
    (nextId : Nat) (now : Nat) : ResourceResponse × DB :=
  let rows :=
    if req.is_active then deactivateMusicOf user.id db.music_sequences
    else db.music_sequences
  let result := musicUpsert req user rows nextId now
  let s := result.1
  ({ id := s.id, name_or_title := s.title, data := s.sequence_data,
     is_active := s.is_active, is_public := s.is_public,
     created_at := s.created_at, author := user.username },
   { db with music_sequences := result.2 })

/-! ## Invariant vocabulary -/

/-- Number of active gesture rows owned by uid. -/
def activeGestureCount (uid : Nat) (l : List GestureMapping) : Nat :=
  l.countP (fun g => g.user_id == uid && g.is_active)

/-- Number of active music rows owned by uid. -/
def activeMusicCount (uid : Nat) (l : List MusicSequence) : Nat :=
  l.countP (fun s => s.user_id == uid && s.is_active)

/-- Rows of the saved_models table keyed by owner and name. -/
def modelKeyRows (uid : Nat) (name : String) (l : List SavedModel) : List SavedModel :=
  l.filter (fun m => m.user_id == uid && m.name == name)

/-- Decimal value of a digit-character list, the inverse of decChars. -/
def decVal (cs : List Char) : Nat :=
  cs.foldl (fun a c => a * 10 + (c.toNat - 48)) 0

/-! ## Concrete store fixtures used by witnesses and counterexamples -/

/-- A first account. -/
def userA : User :=
  { id := 1, username := "amy", email := "a@x.com",
    hashed_password := some (hash_password "saltA" "hunter2"), created_at := 0 }

/-- A second account. -/
def userB : User :=
  { id := 2, username := "bob", email := "b@x.com",
    hashed_password := some (hash_password "saltB" "hunter3"), created_at := 0 }

/-- A private saved model owned by userA. -/
def privModel : SavedModel :=
  { id := 1, user_id := 1, name := "m1", description := none,
    class_names := "[thumbs]", model_data := "weights", dataset := none,
    is_public := false, created_at := 5 }

/-- An older gesture row of userA, stored first. -/
def gestOld : GestureMapping :=
  { id := 1, user_id := 1, name := "g-old", mapping_data := "cfg1",
    is_active := true, is_public := false, created_at := 1 }

/-- A newer gesture row of userA, stored second. -/
def gestNew : GestureMapping :=
  { id := 2, user_id := 1, name := "g-new", mapping_data := "cfg2",
    is_active := false, is_public := false, created_at := 2 }

/-- A music row of userA. -/
def seqOne : MusicSequence :=
  { id := 1, user_id := 1, title := "s1", sequence_data := some "notes",
    is_active := true, is_public := false, created_at := 3 }

/-- An unconsumed reset token of userA. -/
def rtA : PasswordResetToken :=
  { user_id := 1, token := "tok1", expires_at := 100 }

/-- Store used by the access-control and deletion scenarios. -/
def dbModels : DB :=
  { users := [userA, userB], saved_models := [privModel],
    gesture_mappings := [], music_sequences := [], reset_tokens := [] }

/-- Store used by the listing-order scenarios. -/
def dbLists : DB :=
  { users := [userA], saved_models := [],
    gesture_mappings := [gestOld, gestNew], music_sequences := [seqOne],
    reset_tokens := [] }

/-- Store used by the reset-token and notification scenarios. -/
def dbAuth : DB :=
  { users := [userA, userB], saved_models := [],
    gesture_mappings := [], music_sequences := [], reset_tokens := [rtA] }

/-- Store used by the upsert and exclusivity scenarios. -/
def dbSaves : DB :=
  { users := [userA], saved_models := [privModel],
    gesture_mappings := [gestOld, gestNew], music_sequences := [seqOne],
    reset_tokens := [] }

/-! ## Helper lemmas: canonical decimal rendering -/

lemma decDigitChar_toNat {d : Nat} (h : d < 10) : (decDigitChar d).toNat = 48 + d := by
  interval_cases d <;> decide

lemma foldl_decChars (n : Nat) : ∀ acc : Nat,
    List.foldl (fun a c => a * 10 + (c.toNat - 48)) acc (decChars n) =
      acc * 10 ^ (decChars n).length + n := by
  induction n using Nat.strong_induction_on with
  | _ n ih =>
    intro acc
    by_cases h : n < 10
    · rw [decChars, dif_pos h]
      simp [decDigitChar_toNat h]
    · rw [decChars, dif_neg h]
      have hdiv : n / 10 < n :=
        Nat.div_lt_self (Nat.lt_of_lt_of_le (by decide) (Nat.le_of_not_lt h)) (by decide)
      have hmod : n % 10 < 10 := Nat.mod_lt _ (by decide)
      rw [List.foldl_append, ih (n / 10) hdiv acc]
      simp only [List.foldl_cons, List.foldl_nil, List.length_append,
        List.length_cons, List.length_nil]
      rw [decDigitChar_toNat hmod]
      have hk : (10 : Nat) ^ ((decChars (n / 10)).length + (0 + 1)) =
          10 ^ (decChars (n / 10)).length * 10 := by
        rw [Nat.zero_add, Nat.pow_succ]
      rw [hk]
      have : 48 + n % 10 - 48 = n % 10 := by omega
      rw [this]
      calc (acc * 10 ^ (decChars (n / 10)).length + n / 10) * 10 + n % 10
          = acc * (10 ^ (decChars (n / 10)).length * 10) + (10 * (n / 10) + n % 10) := by ring
        _ = acc * (10 ^ (decChars (n / 10)).length * 10) + n := by rw [Nat.div_add_mod]

lemma decVal_decChars (n : Nat) : decVal (decChars n) = n := by
  have h := foldl_decChars n 0
  simpa [decVal] using h

lemma pyStr_injective {a b : Nat} (h : pyStr a = pyStr b) : a = b := by
  have hdata : decChars a = decChars b := congrArg String.data h
  have := congrArg decVal hdata
  simpa [decVal_decChars] using this

lemma find?_user_by_canonical_id (l : List User) (u : User)
    (hn : (l.map User.id).Nodup) (hu : u ∈ l) :
    l.find? (fun x => intColEqTextParam x.id (pyStr u.id)) = some u := by
  induction l with
  | nil => cases hu
  | cons x xs ih =>
    by_cases hx : u.id = x.id
    · have hux : u = x := by
        rcases List.mem_cons.mp hu with h | h
        · exact h
        · exfalso
          have hmem : x.id ∈ xs.map User.id := by
            rw [← hx]
            exact List.mem_map_of_mem User.id h
          exact (List.nodup_cons.mp hn).1 hmem
      subst hux
      have hpred : intColEqTextParam u.id (pyStr u.id) = true := by
        simp [intColEqTextParam]
      exact List.find?_cons_of_pos _ hpred
    · have hpred : ¬ intColEqTextParam x.id (pyStr u.id) = true := by
        simp only [intColEqTextParam, beq_iff_eq]
        intro hcontra
        exact hx (pyStr_injective hcontra)
      have hstep : List.find? (fun y => intColEqTextParam y.id (pyStr u.id)) (x :: xs) =
          List.find? (fun y => intColEqTextParam y.id (pyStr u.id)) xs :=
        List.find?_cons_of_neg _ hpred
      rw [hstep]
      have hu' : u ∈ xs := by
        rcases List.mem_cons.mp hu with h | h
        · exact absurd (congrArg User.id h) hx
        · exact h
      exact ih (List.nodup_cons.mp hn).2 hu'

/-- C5: issuing a bearer token for the id of an existing identity and
verifying it at once recovers the same subject string and resolves to
the same user row. -/
theorem issue_then_verify_roundtrip (db : DB) (u : User) (now now2 : Nat)
    (hmem : u ∈ db.users) (hids : (db.users.map User.id).Nodup)
    (hlive : now2 ≤ now + ACCESS_TOKEN_EXPIRE_MINUTES * 60) :
    jwtDecode (create_access_token (pyStr u.id) now) SECRET_KEY now2 =
      .ok (some (pyStr u.id), now + ACCESS_TOKEN_EXPIRE_MINUTES * 60) ∧
    get_current_user (some (create_access_token (pyStr u.id) now)) db now2 = some u := by
  have hdec : jwtDecode (create_access_token (pyStr u.id) now) SECRET_KEY now2 =
      .ok (some (pyStr u.id), now + ACCESS_TOKEN_EXPIRE_MINUTES * 60) := by
    simp [jwtDecode, create_access_token, Nat.not_lt.mpr hlive]
  refine ⟨hdec, ?_⟩
  simp only [get_current_user, hdec]
  exact find?_user_by_canonical_id db.users u hids hmem

/-- Witness for issue_then_verify_roundtrip at a concrete store. -/
theorem issue_then_verify_roundtrip_witness :
    get_current_user (some (create_access_token (pyStr userB.id) 0)) dbModels 3600 =
      some userB :=
  (issue_then_verify_roundtrip dbModels userB 0 3600 (by decide) (by decide) (by decide)).2

/-! ## C4: verification error behaviour -/

/-- C4 counterexample: verification against a corrupt hash string or an
absent hash raises a passlib error instead of returning false, so the
claim that verify never raises and fails safe to false is refuted at
these concrete inputs. -/
theorem verify_password_raises_cx :
    verify_password "anything" (some "corrupt-hash") = .error .unknownHash ∧
    verify_password "anything" none = .error .typeError :=
  ⟨rfl, rfl⟩

/-- C4 amended: verification returns a boolean exactly when the stored
string carries the bcrypt scheme header; a structurally malformed hash
raises UnknownHashError and an absent hash raises TypeError, with no
handler in verify_password to turn either into false. -/
theorem verify_password_error_behavior (p h : String) :
    (strTake7 h = bcryptHeader →
      verify_password p (some h) = .ok (strDrop29 h == normalize_password p)) ∧
    (strTake7 h ≠ bcryptHeader →
      verify_password p (some h) = .error .unknownHash) ∧
    verify_password p none = .error .typeError := by
  refine ⟨?_, ?_, rfl⟩ <;> intro hh <;>
    simp [verify_password, cryptContextVerify, hh]

/-- Witness for verify_password_error_behavior at concrete hashes. -/
theorem verify_password_error_behavior_witness :
    verify_password "pw" (some "$2b$12$somesaltsomesaltsomesidigest") =
      .ok (strDrop29 "$2b$12$somesaltsomesaltsomes1digest" == normalize_password "pw") ∧
    verify_password "pw" (some "plainly-wrong") = .error .unknownHash :=
  ⟨(verify_password_error_behavior "pw" "$2b$12$somesaltsomesaltsomes1digest").1 (by decide),
   (verify_password_error_behavior "pw" "plainly-wrong").2.1 (by decide)⟩

/-! ## C1: get-by-id access control -/

/-- C1 counterexample: the store holds a private model, yet the
requester-less get handler returns its full detail, model_data and
dataset included, instead of Forbidden. -/
theorem get_model_private_open_read_cx :
    privModel.is_public = false ∧
    get_model 1 dbModels =
      .ok { id := 1, name := "m1", description := none,
            class_names := "[thumbs]", is_public := false, created_at := 5,
            author := "amy", model_data := "weights", dataset := none } :=
  ⟨rfl, rfl⟩

/-- C1 amended: get-by-id returns NotFound exactly when the id is
absent, and otherwise returns the full detail, private payload fields
included, to every caller — the route takes no requester and the
privacy branch in the source is a no-op, so Forbidden is never
returned. -/
theorem get_model_notfound_or_full_detail (db : DB) (mid : Nat) :
    (db.saved_models.find? (fun m => m.id == mid) = none →
      get_model mid db = .error (.notFound "Model not found")) ∧
    (∀ m, db.saved_models.find? (fun m' => m'.id == mid) = some m →
      get_model mid db =
        .ok { id := m.id, name := m.name, description := m.description,
              class_names := m.class_names, is_public := m.is_public,
              created_at := m.created_at, author := username_of db m.user_id,
              model_data := m.model_data, dataset := m.dataset }) := by
  constructor
  · intro h
    simp [get_model, h]
  · intro m h
    simp [get_model, h]

/-- Witness for get_model_notfound_or_full_detail: both branches at a
concrete store. -/
theorem get_model_notfound_or_full_detail_witness :
    get_model 99 dbModels = .error (.notFound "Model not found") ∧
    get_model 1 dbModels =
      .ok { id := privModel.id, name := privModel.name,
            description := privModel.description,
            class_names := privModel.class_names,
            is_public := privModel.is_public,
            created_at := privModel.created_at,
            author := username_of dbModels privModel.user_id,
            model_data := privModel.model_data, dataset := privModel.dataset } :=
  ⟨(get_model_notfound_or_full_detail dbModels 99).1 (by decide),
   (get_model_notfound_or_full_detail dbModels 1).2 privModel (by decide)⟩

/-! ## C2: delete semantics -/

/-- C2 evidence: the owner deletes their own model, the handler answers
Model deleted, yet the store is returned unchanged and the row is still
found — the success branch of delete_model never calls db.delete.  The
gesture-mapping delete, by contrast, does remove its row (and folds the
non-owner case into NotFound rather than Forbidden). -/
theorem delete_model_leaves_row :
    delete_model 1 userA dbModels = (.ok "Model deleted", dbModels) ∧
    dbModels.saved_models.find? (fun m => m.id == 1) = some privModel ∧
    delete_model 1 userB dbModels = (.error (.forbidden "Not your model"), dbModels) ∧
    delete_model 99 userA dbModels = (.error (.notFound "Model not found"), dbModels) ∧
    delete_gesture_mapping 1 userA dbLists =
      (.ok "Deleted successfully",
        { dbLists with gesture_mappings := [gestNew] }) ∧
    delete_gesture_mapping 1 userB dbLists =
      (.error (.notFound "Mapping not found"), dbLists) := by
  refine ⟨rfl, rfl, rfl, rfl, rfl, rfl⟩

/-! ## C3: reset tokens are single use -/

lemma find?_eq_none_of_token_not_mem (l : List PasswordResetToken) (s : String)
    (h : s ∉ l.map PasswordResetToken.token) :
    l.find? (fun t => t.token == s) = none := by
  rw [List.find?_eq_none]
  intro t ht hcontra
  apply h
  have hts : t.token = s := by simpa using hcontra
  rw [← hts]
  exact List.mem_map_of_mem PasswordResetToken.token ht

lemma find?_token_eraseP_self (l : List PasswordResetToken) (s : String)
    (rt : PasswordResetToken)
    (hn : (l.map PasswordResetToken.token).Nodup)
    (hf : l.find? (fun t => t.token == s) = some rt) :
    (l.eraseP (fun t => t == rt)).find? (fun t => t.token == s) = none := by
  induction l with
  | nil => simp at hf
  | cons x xs ih =>
    by_cases hx : (x.token == s) = true
    · have hsome : (x :: xs).find? (fun t => t.token == s) = some x :=
        List.find?_cons_of_pos _ hx
      rw [hsome] at hf
      have hrx : rt = x := (Option.some.injEq _ _).mp hf.symm
      have herase : (x :: xs).eraseP (fun t => t == rt) = xs := by
        apply List.eraseP_cons_of_pos
        rw [hrx]
        simp
      rw [herase]
      apply find?_eq_none_of_token_not_mem
      have hts : x.token = s := by simpa using hx
      rw [← hts]
      exact (List.nodup_cons.mp hn).1
    · have hstep : (x :: xs).find? (fun t => t.token == s) =
          xs.find? (fun t => t.token == s) := List.find?_cons_of_neg _ hx
      rw [hstep] at hf
      have hrt : (rt.token == s) = true := by
        have h2 := List.find?_some hf
        simpa using h2
      have hxart : ¬ ((x == rt) = true) := by
        simp only [beq_iff_eq]
        intro hcontra
        rw [hcontra] at hx
        exact hx hrt
      have herase : (x :: xs).eraseP (fun t => t == rt) =
          x :: xs.eraseP (fun t => t == rt) := List.eraseP_cons_of_neg hxart
      rw [herase]
      have hxs : ((x :: xs.eraseP (fun t => t == rt)).find? (fun t => t.token == s)) =
          (xs.eraseP (fun t => t == rt)).find? (fun t => t.token == s) :=
        List.find?_cons_of_neg _ hx
      rw [hxs]
      exact ih (List.nodup_cons.mp hn).2 hf

/-- C3: once a reset-token consumption succeeds, a second consumption
attempt with the same token string is rejected as Invalid token, for
every new password supplied; the spec-modelled uniqueness of the token
column is the Nodup hypothesis. -/
theorem reset_token_single_use (req1 req2 : ResetPasswordRequest) (db : DB)
    (now1 now2 : Nat) (salt1 salt2 : String)
    (hn : (db.reset_tokens.map PasswordResetToken.token).Nodup)
    (hok : (reset_password req1 db now1 salt1).1 = .ok "Password updated successfully")
    (htok : req2.token = req1.token) :
    (reset_password req2 (reset_password req1 db now1 salt1).2 now2 salt2).1 =
      .error (.badRequest "Invalid token") := by
  rcases hfind : db.reset_tokens.find? (fun t => t.token == req1.token) with _ | rt
  · simp [reset_password, hfind] at hok
  · by_cases hexp : rt.expires_at < now1
    · simp [reset_password, hfind, hexp] at hok
    · rcases huser : db.users.find? (fun u => u.id == rt.user_id) with _ | user
      · simp [reset_password, hfind, hexp, huser] at hok
      · have hnone : (db.reset_tokens.eraseP (fun t => t == rt)).find?
            (fun t => t.token == req2.token) = none := by
          rw [htok]
          exact find?_token_eraseP_self db.reset_tokens req1.token rt hn hfind
        simp [reset_password, hfind, hexp, huser, updateUserRow, hnone]

/-- Witness for reset_token_single_use at a concrete store: the first
consumption succeeds, the second is rejected. -/
theorem reset_token_single_use_witness :
    (reset_password { token := "tok1", new_password := "newpw7" } dbAuth 50 "s2").1 =
      .ok "Password updated successfully" ∧
    (reset_password { token := "tok1", new_password := "other9" }
        (reset_password { token := "tok1", new_password := "newpw7" } dbAuth 50 "s2").2
        60 "s3").1 = .error (.badRequest "Invalid token") := by
  refine ⟨rfl, ?_⟩
  exact reset_token_single_use
    { token := "tok1", new_password := "newpw7" }
    { token := "tok1", new_password := "other9" }
    dbAuth 50 60 "s2" "s3" (by decide) rfl rfl

/-! ## C6: at most one active resource per owner and kind -/

lemma countP_map_ite_le {α : Type} (idf : α → Nat) (eid : Nat) (upd : α)
    (p : α → Bool) (hupd : p upd = false) (l : List α) :
    (l.map (fun a => if idf a == eid then upd else a)).countP p ≤ l.countP p := by
  induction l with
  | nil => simp
  | cons x xs ih =>
    simp only [List.map_cons, List.countP_cons]
    by_cases hx : (idf x == eid) = true
    · simp only [if_pos hx, hupd, Bool.false_eq_true, if_false, Nat.add_zero]
      exact le_trans ih (Nat.le_add_right _ _)
    · simp only [if_neg hx]
      exact Nat.add_le_add_right ih _

lemma countP_map_ite_eq_one {α : Type} (idf : α → Nat) (e : α) (upd : α)
    (p : α → Bool) (hupd : p upd = true) (l : List α)
    (h0 : l.countP p = 0) (hn : (l.map idf).Nodup) (he : e ∈ l) :
    (l.map (fun a => if idf a == idf e then upd else a)).countP p = 1 := by
  rw [List.countP_map]
  have hpoint : ∀ a ∈ l,
      ((p ∘ fun a => if idf a == idf e then upd else a) a = true ↔
        (fun a => idf a == idf e) a = true) := by
    intro a ha
    by_cases hai : (idf a == idf e) = true
    · simp [Function.comp, hai, hupd]
    · have hpa : ¬ p a = true := (List.countP_eq_zero.mp h0) a ha
      simp [Function.comp, hai, hpa]
  rw [List.countP_congr hpoint]
  have hcount : l.countP (fun a => idf a == idf e) = (l.map idf).count (idf e) := by
    rw [List.count, List.countP_map]
    rfl
  rw [hcount]
  refine Nat.le_antisymm (List.nodup_iff_count_le_one.mp hn _) ?_
  exact List.count_pos_iff.mpr (List.mem_map_of_mem idf he)

lemma activeGestureCount_deactivate_self (uid : Nat) (l : List GestureMapping) :
    activeGestureCount uid (deactivateGesturesOf uid l) = 0 := by
  unfold activeGestureCount deactivateGesturesOf
  rw [List.countP_map, List.countP_eq_zero]
  intro g _
  by_cases hgu : (g.user_id == uid) = true
  · simp [Function.comp, hgu]
  · simp [Function.comp, hgu]

lemma activeGestureCount_deactivate_other (uid uid' : Nat) (hne : uid' ≠ uid)
    (l : List GestureMapping) :
    activeGestureCount uid' (deactivateGesturesOf uid l) = activeGestureCount uid' l := by
  unfold activeGestureCount deactivateGesturesOf
  rw [List.countP_map]
  apply List.countP_congr
  intro g _
  by_cases hgu : (g.user_id == uid) = true
  · have huid : g.user_id = uid := by simpa using hgu
    simp [Function.comp, hgu, huid, Ne.symm hne]
  · simp [Function.comp, hgu]

lemma deactivateGesturesOf_ids (uid : Nat) (l : List GestureMapping) :
    (deactivateGesturesOf uid l).map GestureMapping.id = l.map GestureMapping.id := by
  unfold deactivateGesturesOf
  rw [List.map_map]
  apply List.map_congr_left
  intro g _
  by_cases hgu : (g.user_id == uid) = true
  · simp [Function.comp, hgu]
  · simp [Function.comp, hgu]

lemma activeMusicCount_deactivate_self (uid : Nat) (l : List MusicSequence) :
    activeMusicCount uid (deactivateMusicOf uid l) = 0 := by
  unfold activeMusicCount deactivateMusicOf
  rw [List.countP_map, List.countP_eq_zero]
  intro s _
  by_cases hsu : (s.user_id == uid) = true
  · simp [Function.comp, hsu]
  · simp [Function.comp, hsu]

lemma activeMusicCount_deactivate_other (uid uid' : Nat) (hne : uid' ≠ uid)
    (l : List MusicSequence) :
    activeMusicCount uid' (deactivateMusicOf uid l) = activeMusicCount uid' l := by
  unfold activeMusicCount deactivateMusicOf
  rw [List.countP_map]
  apply List.countP_congr
  intro s _
  by_cases hsu : (s.user_id == uid) = true
  · have huid : s.user_id = uid := by simpa using hsu
    simp [Function.comp, hsu, huid, Ne.symm hne]
  · simp [Function.comp, hsu]

lemma deactivateMusicOf_ids (uid : Nat) (l : List MusicSequence) :
    (deactivateMusicOf uid l).map MusicSequence.id = l.map MusicSequence.id := by
  unfold deactivateMusicOf
  rw [List.map_map]
  apply List.map_congr_left
  intro s _
  by_cases hsu : (s.user_id == uid) = true
  · simp [Function.comp, hsu]
  · simp [Function.comp, hsu]

lemma gestureUpsert_active_bound (req : GestureMappingSchema) (user : User)
    (rows : List GestureMapping) (nextId now : Nat) (uid : Nat)
    (hn : (rows.map GestureMapping.id).Nodup)
    (hself : req.is_active = true → activeGestureCount user.id rows = 0)
    (hbound : activeGestureCount uid rows ≤ 1) :
    activeGestureCount uid (gestureUpsert req user rows nextId now).2 ≤ 1 := by
  unfold activeGestureCount at *
  rcases hfind : rows.find? (fun g => g.user_id == user.id && g.name == req.name) with _ | e
  · simp only [gestureUpsert, hfind]
    rw [List.countP_append]
    cases hact : req.is_active with
    | true =>
        by_cases hu : user.id = uid
        · rw [← hu, hself hact]
          simp [List.countP_cons]
        · have h00 : (user.id == uid) = false := by simp [hu]
          simp [List.countP_cons, h00]
          exact hbound
    | false =>
        simp [List.countP_cons]
        exact hbound
  · simp only [gestureUpsert, hfind]
    have hemem : e ∈ rows := List.mem_of_find?_eq_some hfind
    have h2 := List.find?_some hfind
    simp only [Bool.and_eq_true, beq_iff_eq] at h2
    by_cases hu : uid = user.id
    · rw [hu] at hbound ⊢
      cases hact : req.is_active with
      | true =>
          have h0 := hself hact
          have honer := countP_map_ite_eq_one GestureMapping.id e
            { e with mapping_data := req.mapping_data, is_active := true }
            (fun g => g.user_id == user.id && g.is_active)
            (by simp [h2.1]) rows h0 hn hemem
          rw [honer]
      | false =>
          have hle := countP_map_ite_le GestureMapping.id e.id
            { e with mapping_data := req.mapping_data, is_active := false }
            (fun g => g.user_id == user.id && g.is_active)
            (by simp) rows
          exact le_trans hle hbound
    · have hle := countP_map_ite_le GestureMapping.id e.id
        { e with mapping_data := req.mapping_data, is_active := req.is_active }
        (fun g => g.user_id == uid && g.is_active)
        (by
          have hfalse : (e.user_id == uid) = false := by
            simp only [beq_eq_false_iff_ne, ne_eq, h2.1]
            exact fun hcontra => hu hcontra.symm
          simp [hfalse]) rows
      exact le_trans hle hbound

lemma musicUpsert_active_bound (req : MusicSequenceSchema) (user : User)
    (rows : List MusicSequence) (nextId now : Nat) (uid : Nat)
    (hn : (rows.map MusicSequence.id).Nodup)
    (hself : req.is_active = true → activeMusicCount user.id rows = 0)
    (hbound : activeMusicCount uid rows ≤ 1) :
    activeMusicCount uid (musicUpsert req user rows nextId now).2 ≤ 1 := by
  unfold activeMusicCount at *
  rcases hfind : rows.find? (fun s => s.user_id == user.id && s.title == req.title) with _ | e
  · simp only [musicUpsert, hfind]
    rw [List.countP_append]
    cases hact : req.is_active with
    | true =>
        by_cases hu : user.id = uid
        · rw [← hu, hself hact]
          simp [List.countP_cons]
        · have h00 : (user.id == uid) = false := by simp [hu]
          simp [List.countP_cons, h00]
          exact hbound
    | false =>
        simp [List.countP_cons]
        exact hbound
  · simp only [musicUpsert, hfind]
    have hemem : e ∈ rows := List.mem_of_find?_eq_some hfind
    have h2 := List.find?_some hfind
    simp only [Bool.and_eq_true, beq_iff_eq] at h2
    by_cases hu : uid = user.id
    · rw [hu] at hbound ⊢
      cases hact : req.is_active with
      | true =>
          have h0 := hself hact
          have honer := countP_map_ite_eq_one MusicSequence.id e
            { e with sequence_data := req.sequence_data, is_active := true }
            (fun s => s.user_id == user.id && s.is_active)
            (by simp [h2.1]) rows h0 hn hemem
          rw [honer]
      | false =>
          have hle := countP_map_ite_le MusicSequence.id e.id
            { e with sequence_data := req.sequence_data, is_active := false }
            (fun s => s.user_id == user.id && s.is_active)
            (by simp) rows
          exact le_trans hle hbound
    · have hle := countP_map_ite_le MusicSequence.id e.id
        { e with sequence_data := req.sequence_data, is_active := req.is_active }
        (fun s => s.user_id == uid && s.is_active)
        (by
          have hfalse : (e.user_id == uid) = false := by
            simp only [beq_eq_false_iff_ne, ne_eq, h2.1]
            exact fun hcontra => hu hcontra.symm
          simp [hfalse]) rows
      exact le_trans hle hbound

/-- C6: saving a gesture mapping or a piano sequence preserves the
invariant that each owner has at most one active row of that kind; a
save requesting is_active first deactivates every row of the owner, so
afterwards exactly the saved row is active for them and other owners
are untouched.  The primary-key Nodup hypotheses model the store. -/
theorem save_active_exclusive (greq : GestureMappingSchema)
    (sreq : MusicSequenceSchema) (user : User) (db : DB)
    (nid1 nid2 now1 now2 : Nat)
    (hgids : (db.gesture_mappings.map GestureMapping.id).Nodup)
    (hginv : ∀ uid, activeGestureCount uid db.gesture_mappings ≤ 1)
    (hmids : (db.music_sequences.map MusicSequence.id).Nodup)
    (hminv : ∀ uid, activeMusicCount uid db.music_sequences ≤ 1) :
    (∀ uid, activeGestureCount uid
      (save_gesture greq user db nid1 now1).2.gesture_mappings ≤ 1) ∧
    (∀ uid, activeMusicCount uid
      (save_piano_sequence sreq user db nid2 now2).2.music_sequences ≤ 1) := by
  constructor
  · intro uid
    show activeGestureCount uid (gestureUpsert greq user
      (if greq.is_active then deactivateGesturesOf user.id db.gesture_mappings
       else db.gesture_mappings) nid1 now1).2 ≤ 1
    cases hact : greq.is_active with
    | true =>
        rw [if_pos rfl]
        apply gestureUpsert_active_bound
        · rw [deactivateGesturesOf_ids]
          exact hgids
        · intro _
          exact activeGestureCount_deactivate_self user.id db.gesture_mappings
        · by_cases hu : uid = user.id
          · rw [hu, activeGestureCount_deactivate_self]
            omega
          · rw [activeGestureCount_deactivate_other user.id uid hu]
            exact hginv uid
    | false =>
        rw [if_neg Bool.false_ne_true]
        apply gestureUpsert_active_bound
        · exact hgids
        · intro hcontra
          rw [hact] at hcontra
          exact absurd hcontra Bool.false_ne_true
        · exact hginv uid
  · intro uid
    show activeMusicCount uid (musicUpsert sreq user
      (if sreq.is_active then deactivateMusicOf user.id db.music_sequences
       else db.music_sequences) nid2 now2).2 ≤ 1
    cases hact : sreq.is_active with
    | true =>
        rw [if_pos rfl]
        apply musicUpsert_active_bound
        · rw [deactivateMusicOf_ids]
          exact hmids
        · intro _
          exact activeMusicCount_deactivate_self user.id db.music_sequences
        · by_cases hu : uid = user.id
          · rw [hu, activeMusicCount_deactivate_self]
            omega
          · rw [activeMusicCount_deactivate_other user.id uid hu]
            exact hminv uid
    | false =>
        rw [if_neg Bool.false_ne_true]
        apply musicUpsert_active_bound
        · exact hmids
        · intro hcontra
          rw [hact] at hcontra
          exact absurd hcontra Bool.false_ne_true
        · exact hminv uid

/-- Witness for save_active_exclusive at a concrete store holding an
already-active gesture row and music row of the same owner. -/
theorem save_active_exclusive_witness :
    activeGestureCount 1 (save_gesture
      { name := "g-new", mapping_data := "cfg9", is_active := true }
      userA dbSaves 3 9).2.gesture_mappings ≤ 1 ∧
    activeMusicCount 1 (save_piano_sequence
      { title := "s2", sequence_data := none, is_active := true }
      userA dbSaves 4 9).2.music_sequences ≤ 1 := by
  have h := save_active_exclusive
    { name := "g-new", mapping_data := "cfg9", is_active := true }
    { title := "s2", sequence_data := none, is_active := true }
    userA dbSaves 3 4 9 9
    (by decide)
    (by
      intro uid
      show List.countP (fun g => g.user_id == uid && g.is_active)
        [gestOld, gestNew] ≤ 1
      by_cases h1 : (1 == uid) = true <;>
        simp [List.countP_cons, gestOld, gestNew, h1])
    (by decide)
    (by
      intro uid
      show List.countP (fun s => s.user_id == uid && s.is_active) [seqOne] ≤ 1
      by_cases h1 : (1 == uid) = true <;>
        simp [List.countP_cons, seqOne, h1])
  exact ⟨h.1 1, h.2 1⟩

/-! ## C7: saving twice under one (owner, name) keeps a single row -/

lemma filter_eq_singleton_of_countP_le_one {α : Type} (p : α → Bool)
    (l : List α) (e : α) (hc : l.countP p ≤ 1) (he : e ∈ l)
    (hp : p e = true) : l.filter p = [e] := by
  induction l with
  | nil => cases he
  | cons x xs ih =>
    rw [List.countP_cons] at hc
    by_cases hx : p x = true
    · rw [if_pos hx] at hc
      have h0 : xs.countP p = 0 := by omega
      have hfx : xs.filter p = [] :=
        List.filter_eq_nil_iff.mpr (List.countP_eq_zero.mp h0)
      have hex : e = x := by
        rcases List.mem_cons.mp he with h | h
        · exact h
        · exact absurd hp ((List.countP_eq_zero.mp h0) e h)
      rw [List.filter_cons_of_pos hx, hfx, hex]
    · have hex : e ∈ xs := by
        rcases List.mem_cons.mp he with h | h
        · rw [h] at hp
          exact absurd hp hx
        · exact h
      rw [if_neg hx] at hc
      rw [List.filter_cons_of_neg hx]
      exact ih (by omega) hex

lemma filter_map_ite_eq_singleton {α : Type} (idf : α → Nat) (q : α → Bool)
    (l : List α) (e upd : α)
    (hn : (l.map idf).Nodup) (hq : l.filter q = [e]) (he : e ∈ l)
    (hqupd : q upd = true) :
    (l.map (fun a => if idf a == idf e then upd else a)).filter q = [upd] := by
  rw [List.filter_map]
  have hmem_only : ∀ a ∈ l, q a = true → a = e := by
    intro a ha hqa
    have hmem : a ∈ l.filter q := List.mem_filter.mpr ⟨ha, hqa⟩
    rw [hq] at hmem
    simpa using hmem
  have hpoint : ∀ a ∈ l,
      (q ∘ fun a => if idf a == idf e then upd else a) a =
        (fun a => idf a == idf e) a := by
    intro a ha
    by_cases hai : (idf a == idf e) = true
    · simp only [Function.comp, if_pos hai]
      rw [hqupd, hai]
    · simp only [Function.comp, if_neg hai]
      have hqa : q a = false := by
        cases hqa2 : q a with
        | true =>
            have hae : a = e := hmem_only a ha hqa2
            rw [hae] at hai
            exact absurd (by simp) hai
        | false => rfl
      cases hval : (idf a == idf e) with
      | true => exact absurd hval hai
      | false => rw [hqa]
  rw [List.filter_congr hpoint]
  have hfid : l.filter (fun a => idf a == idf e) = [e] := by
    apply filter_eq_singleton_of_countP_le_one
    · have hcnt : l.countP (fun a => idf a == idf e) = (l.map idf).count (idf e) := by
        rw [List.count, List.countP_map]
        rfl
      rw [hcnt]
      exact List.nodup_iff_count_le_one.mp hn _
    · exact he
    · simp
  rw [hfid]
  simp

lemma modelUpsert_keyRows (req : ModelSaveRequest) (user : User)
    (rows : List SavedModel) (nextId now : Nat)
    (hn : (rows.map SavedModel.id).Nodup)
    (hkey : rows.countP (fun m => m.user_id == user.id && m.name == req.name) ≤ 1) :
    modelKeyRows user.id req.name (modelUpsert req user rows nextId now).2 =
      [(modelUpsert req user rows nextId now).1] ∧
    (modelUpsert req user rows nextId now).1.description = req.description ∧
    (modelUpsert req user rows nextId now).1.class_names = req.class_names ∧
    (modelUpsert req user rows nextId now).1.model_data = req.model_data ∧
    (modelUpsert req user rows nextId now).1.dataset = req.dataset ∧
    (modelUpsert req user rows nextId now).1.is_public = req.is_public := by
  rcases hfind : rows.find? (fun m => m.user_id == user.id && m.name == req.name) with _ | e
  · simp only [modelUpsert, hfind, modelKeyRows]
    have hnone : ∀ m ∈ rows, ¬ (m.user_id == user.id && m.name == req.name) = true :=
      List.find?_eq_none.mp hfind
    rw [List.filter_append, List.filter_eq_nil_iff.mpr hnone]
    simp
  · simp only [modelUpsert, hfind, modelKeyRows]
    have hemem : e ∈ rows := List.mem_of_find?_eq_some hfind
    have hqe := List.find?_some hfind
    have h2 : e.user_id = user.id ∧ e.name = req.name := by simpa using hqe
    refine ⟨?_, by trivial, by trivial, by trivial, by trivial, by trivial⟩
    have hsingle : rows.filter (fun m => m.user_id == user.id && m.name == req.name) = [e] :=
      filter_eq_singleton_of_countP_le_one _ rows e hkey hemem hqe
    exact filter_map_ite_eq_singleton SavedModel.id
      (fun m => m.user_id == user.id && m.name == req.name) rows e
      { e with
        description := req.description, class_names := req.class_names,
        model_data := req.model_data, dataset := req.dataset,
        is_public := req.is_public }
      hn hsingle hemem (by simp [h2.1, h2.2])

lemma modelUpsert_ids (req : ModelSaveRequest) (user : User)
    (rows : List SavedModel) (nextId now : Nat)
    (hfresh : nextId ∉ rows.map SavedModel.id)
    (hn : (rows.map SavedModel.id).Nodup) :
    ((modelUpsert req user rows nextId now).2.map SavedModel.id).Nodup := by
  rcases hfind : rows.find? (fun m => m.user_id == user.id && m.name == req.name) with _ | e
  · simp only [modelUpsert, hfind]
    rw [List.map_append]
    simp only [List.map_cons, List.map_nil]
    rw [List.nodup_append]
    refine ⟨hn, List.nodup_singleton _, ?_⟩
    intro a ha hb
    simp only [List.mem_singleton] at hb
    rw [hb] at ha
    exact hfresh ha
  · simp only [modelUpsert, hfind]
    have hids2 : ((rows.map (fun m =>
        if m.id == e.id then
          ({ e with
             description := req.description, class_names := req.class_names,
             model_data := req.model_data, dataset := req.dataset,
             is_public := req.is_public } : SavedModel)
        else m)).map SavedModel.id) = rows.map SavedModel.id := by
      rw [List.map_map]
      apply List.map_congr_left
      intro m _
      by_cases hm : (m.id == e.id) = true
      · have hmid : m.id = e.id := by simpa using hm
        simp [Function.comp, hm, hmid]
      · simp [Function.comp, hm]
    rw [hids2]
    exact hn

/-- C7: two saves by the same owner under the same name leave exactly
one stored row for that (owner, name) pair, and its description,
payload fields and visibility are those of the second save.  The Nodup
and freshness hypotheses model the primary key; the countP hypothesis
models the upsert-maintained uniqueness of (owner, name). -/
theorem save_model_twice_latest_wins (req1 req2 : ModelSaveRequest)
    (user : User) (db : DB) (nid1 nid2 t1 t2 : Nat)
    (hname : req2.name = req1.name)
    (hn : (db.saved_models.map SavedModel.id).Nodup)
    (hfresh : nid1 ∉ db.saved_models.map SavedModel.id)
    (hkey : db.saved_models.countP
      (fun m => m.user_id == user.id && m.name == req1.name) ≤ 1) :
    ∃ m, modelKeyRows user.id req2.name
        (save_model req2 user (save_model req1 user db nid1 t1).2 nid2 t2).2.saved_models =
        [m] ∧
      m.description = req2.description ∧ m.class_names = req2.class_names ∧
      m.model_data = req2.model_data ∧ m.dataset = req2.dataset ∧
      m.is_public = req2.is_public := by
  have h1 := modelUpsert_keyRows req1 user db.saved_models nid1 t1 hn hkey
  have hn1 := modelUpsert_ids req1 user db.saved_models nid1 t1 hfresh hn
  have hkey1 : (modelUpsert req1 user db.saved_models nid1 t1).2.countP
      (fun m => m.user_id == user.id && m.name == req2.name) ≤ 1 := by
    rw [hname]
    have hlen := congrArg List.length h1.1
    rw [List.countP_eq_length_filter]
    unfold modelKeyRows at hlen
    rw [hlen]
    simp
  have h2 := modelUpsert_keyRows req2 user
    (modelUpsert req1 user db.saved_models nid1 t1).2 nid2 t2 hn1 hkey1
  exact ⟨(modelUpsert req2 user
    (modelUpsert req1 user db.saved_models nid1 t1).2 nid2 t2).1,
    h2.1, h2.2.1, h2.2.2.1, h2.2.2.2.1, h2.2.2.2.2⟩

/-- Witness for save_model_twice_latest_wins: two saves of the name m1
over a store already holding a row with that name. -/
theorem save_model_twice_latest_wins_witness :
    ∃ m, modelKeyRows userA.id "m1"
        (save_model
          { name := "m1", description := some "second", class_names := "[b]",
            model_data := "w2", dataset := none, is_public := true }
          userA
          (save_model
            { name := "m1", description := some "first", class_names := "[a]",
              model_data := "w1", dataset := none, is_public := false }
            userA dbSaves 2 11).2
          3 12).2.saved_models = [m] ∧
      m.description = some "second" ∧ m.class_names = "[b]" ∧
      m.model_data = "w2" ∧ m.dataset = none ∧ m.is_public = true :=
  save_model_twice_latest_wins
    { name := "m1", description := some "first", class_names := "[a]",
      model_data := "w1", dataset := none, is_public := false }
    { name := "m1", description := some "second", class_names := "[b]",
      model_data := "w2", dataset := none, is_public := true }
    userA dbSaves 2 3 11 12 rfl (by decide) (by decide) (by decide)

/-! ## C8: notifier failures and operation outcomes -/

/-- C8 counterexample: with the store holding the account a@x.com, a
raising notifier makes forgot_password itself fail (the send is not
wrapped in try/except), while the same request under a working notifier
returns the success body — so a notifier failure does change this
outcome of this operation, refuting the claim. -/
theorem forgot_password_notifier_failure_cx :
    (forgot_password "a@x.com" dbAuth "t9" 0 false).1 =
      .error (.internal "send_reset_email raised") ∧
    (forgot_password "a@x.com" dbAuth "t9" 0 true).1 =
      .ok "If that email exists, a reset link has been sent." :=
  ⟨rfl, rfl⟩

/-- C8 amended: the password-change and username-change notifications
are sent inside try/except, so their outcome never reaches the caller
and the committed mutation is unaffected; the password-reset request
commits its token row before the unguarded send, so the row remains
committed even when the notifier raises, but the raise escapes to the
caller instead of the success body. -/
theorem notifier_failure_behavior (preq : UpdatePasswordRequest)
    (user : User) (db : DB) (salt : String) (req : UpdateProfileRequest)
    (email : String) (tok : String) (now : Nat) (u : User)
    (hfound : db.users.find? (fun x => x.email == email) = some u) :
    update_password preq user db salt true = update_password preq user db salt false ∧
    update_profile req user db true = update_profile req user db false ∧
    (forgot_password email db tok now false).2 =
      { db with reset_tokens := db.reset_tokens ++
        [{ user_id := u.id, token := tok, expires_at := now + 3600 }] } ∧
    (forgot_password email db tok now false).1 =
      .error (.internal "send_reset_email raised") := by
  refine ⟨rfl, rfl, ?_, ?_⟩ <;> simp [forgot_password, hfound]

/-- Witness for notifier_failure_behavior: the reset-token row of
userA stays committed although the notifier raised. -/
theorem notifier_failure_behavior_witness :
    (forgot_password "a@x.com" dbAuth "t9" 5 false).2 =
      { dbAuth with reset_tokens := dbAuth.reset_tokens ++
        [{ user_id := userA.id, token := "t9", expires_at := 5 + 3600 }] } :=
  (notifier_failure_behavior { current_password := "x", new_password := "y" }
    userA dbAuth "s" { username := none } "a@x.com" "t9" 5 userA rfl).2.2.1

/-! ## C9: listing order -/

/-- C9 counterexample: the gesture listing carries no order_by, so the
requester sees the two stored rows in store order, oldest first —
refuting newest-first ordering for every listing. -/
theorem listing_order_cx :
    (get_gestures userA dbLists).map (fun r => r.created_at) = [1, 2] ∧
    ¬ List.Sorted (fun a b : ResourceResponse => b.created_at ≤ a.created_at)
      (get_gestures userA dbLists) := by
  refine ⟨rfl, ?_⟩
  intro h
  simp [get_gestures, dbLists, gestOld, gestNew, userA, List.sorted_cons] at h

/-- C9 amended: only the models listing is ordered, by created_at
descending with no id tie-break; the gesture and piano listings return
the rows in store order with no ordering applied. -/
theorem listing_order_amended (user : User) (db : DB) :
    List.Sorted (fun a b : ModelListItem => b.created_at ≤ a.created_at)
      (list_my_models user db) ∧
    (get_gestures user db).map (fun r => r.created_at) =
      (db.gesture_mappings.filter (fun g => g.user_id == user.id)).map
        (fun g => g.created_at) ∧
    (get_piano_sequences user db).map (fun r => r.created_at) =
      (db.music_sequences.filter (fun s => s.user_id == user.id)).map
        (fun s => s.created_at) := by
  refine ⟨?_, ?_, ?_⟩
  · unfold list_my_models
    have hs := List.sorted_insertionSort modelCreatedDesc
      (db.saved_models.filter (fun m => m.user_id == user.id))
    exact hs.map _ (fun a b h => h)
  · unfold get_gestures
    rw [List.map_map]
    rfl
  · unfold get_piano_sequences
    rw [List.map_map]
    rfl

/-! ## C10: forgot-password does not reveal account existence -/

/-- C10: under a working notifier, the response body of forgot_password
is the same for an email that belongs to an account and for one that
belongs to none. -/
theorem forgot_password_uniform_response (db : DB) (e1 e2 : String)
    (tok1 tok2 : String) (now1 now2 : Nat) (u : User)
    (h1 : db.users.find? (fun x => x.email == e1) = some u)
    (h2 : db.users.find? (fun x => x.email == e2) = none) :
    (forgot_password e1 db tok1 now1 true).1 =
      (forgot_password e2 db tok2 now2 true).1 := by
  simp [forgot_password, h1, h2]

/-- Witness for forgot_password_uniform_response at a concrete store. -/
theorem forgot_password_uniform_response_witness :
    (forgot_password "a@x.com" dbAuth "t1" 3 true).1 =
      (forgot_password "nobody@x.com" dbAuth "t2" 4 true).1 :=
  forgot_password_uniform_response dbAuth "a@x.com" "nobody@x.com"
    "t1" "t2" 3 4 userA rfl rfl

end MLHandGesture
